import Mathlib

/-!
Shallow embedding of the Dynamic Straddle Scalper tick decision engine
(src/sovr_hybrid_engineV2/agents/straddle_scalper.py).

Prices, timestamps and pip distances are Python 64-bit floats in the source;
they are modelled as exact rationals here.  Python truthiness of an optional
float field (used by the source in guards such as
  if self.virtual_buy_stop and ...)
is modelled explicitly: an Option value is truthy when it is some v with
v different from 0.
-/

namespace Straddle

/-- Configuration record, StraddleConfig in the source.  All fields are kept,
including the two parameters (take-profit distance, max spread) that the
transition logic never reads. -/
structure StraddleConfig where
  straddle_gap_pips : ℚ
  stop_loss_pips : ℚ
  take_profit_pips : ℚ
  trailing_start_pips : ℚ
  trailing_step_pips : ℚ
  velocity_threshold_pips : ℚ
  max_spread_pips : ℚ
  lot_size : ℚ
deriving DecidableEq

/-- The default parameter values of StraddleConfig.__init__. -/
def defaultConfig : StraddleConfig :=
  { straddle_gap_pips := 2
    stop_loss_pips := 3
    take_profit_pips := 5
    trailing_start_pips := 1
    trailing_step_pips := 1/2
    velocity_threshold_pips := 1/2
    max_spread_pips := 1
    lot_size := 1/100 }

/-- One tick, MarketData in the source. -/
structure MarketData where
  bid : ℚ
  ask : ℚ
  timestamp : ℚ
deriving DecidableEq

/-- Derived mid price, computed in MarketData.__init__. -/
def MarketData.mid (t : MarketData) : ℚ := (t.bid + t.ask) / 2

/-- The side tag stored in the active_position dict. -/
inductive Side where
  | BUY
  | SELL
deriving DecidableEq

/-- The active_position dict: side, entry price and current stop loss. -/
structure Position where
  side : Side
  entry : ℚ
  sl : ℚ
deriving DecidableEq

/-- The instruction dicts returned by on_tick. -/
inductive Instruction where
  | OPEN_BUY (price sl : ℚ)
  | OPEN_SELL (price sl : ℚ)
  | MODIFY_SL (sl : ℚ)
  | CLOSE_BUY
  | CLOSE_SELL
deriving DecidableEq

/-- Mutable state of StraddleLogic. -/
structure StraddleState where
  virtual_buy_stop : Option ℚ
  virtual_sell_stop : Option ℚ
  active_position : Option Position
  last_tick : Option MarketData
  velocity : ℚ
  is_active : Bool
deriving DecidableEq

/-- StraddleLogic.__init__ state. -/
def initState : StraddleState :=
  { virtual_buy_stop := none
    virtual_sell_stop := none
    active_position := none
    last_tick := none
    velocity := 0
    is_active := false }

/-- Step 1 of on_tick: the smoothed velocity after seeing the new tick.
If no previous tick is stored, or the elapsed time is not strictly positive,
the stored velocity is returned unchanged. -/
def velocityUpdate (s : StraddleState) (tick : MarketData) : ℚ :=
  match s.last_tick with
  | none => s.velocity
  | some lt =>
      let dt := tick.timestamp - lt.timestamp
      if 0 < dt then
        let price_change_pips := |tick.mid - lt.mid| * 10000
        let current_velocity := price_change_pips / dt
        s.velocity * (7/10) + current_velocity * (3/10)
      else s.velocity

/-- StraddleLogic.reset_cage.  A current_price argument of none corresponds to
calling reset_cage() with the default argument; the source then falls back to
self.last_tick.mid when a last tick exists.  The final Python guard
`if current_price:` is float truthiness: the stops are seeded only when the
chosen price is a number different from 0. -/
def reset_cage (cfg : StraddleConfig) (s : StraddleState) (current_price : Option ℚ) :
    StraddleState :=
  let cp : Option ℚ :=
    match current_price, s.last_tick with
    | none, some lt => some lt.mid
    | c, _ => c
  match cp with
  | some p =>
      if p ≠ 0 then
        let gap := cfg.straddle_gap_pips / 10000
        { s with virtual_buy_stop := some (p + gap), virtual_sell_stop := some (p - gap) }
      else
        { s with virtual_buy_stop := none, virtual_sell_stop := none }
  | none => { s with virtual_buy_stop := none, virtual_sell_stop := none }

/-- The trailing half of StraddleLogic._manage_cage: the buy stop moves down to
ask + gap when that is lower, the sell stop moves up to bid - gap when that is
higher.  The Python guards `if self.virtual_buy_stop and ...` test truthiness
of the stored float. -/
def trailCage (cfg : StraddleConfig) (s : StraddleState) (tick : MarketData) :
    StraddleState :=
  let gap := cfg.straddle_gap_pips / 10000
  let newBuy :=
    match s.virtual_buy_stop with
    | some b => if b ≠ 0 ∧ tick.ask + gap < b then some (tick.ask + gap) else some b
    | none => none
  let newSell :=
    match s.virtual_sell_stop with
    | some c => if c ≠ 0 ∧ c < tick.bid - gap then some (tick.bid - gap) else some c
    | none => none
  { s with virtual_buy_stop := newBuy, virtual_sell_stop := newSell }

/-- The sell-breach test of StraddleLogic._manage_cage, reached only when the
buy breach did not fire. -/
def cageSellBreach (cfg : StraddleConfig) (s : StraddleState) (tick : MarketData) :
    StraddleState × Option Instruction :=
  match s.virtual_sell_stop with
  | some c =>
      if c ≠ 0 ∧ tick.bid ≤ c then
        let sl := tick.bid + cfg.stop_loss_pips / 10000
        ({ s with active_position := some { side := Side.SELL, entry := tick.bid, sl := sl } },
          some (Instruction.OPEN_SELL tick.bid sl))
      else (s, none)
  | none => (s, none)

/-- The buy-breach test of StraddleLogic._manage_cage; evaluated before the
sell breach, so the buy side wins when both conditions hold. -/
def cageBuyBreach (cfg : StraddleConfig) (s : StraddleState) (tick : MarketData) :
    StraddleState × Option Instruction :=
  match s.virtual_buy_stop with
  | some b =>
      if b ≠ 0 ∧ b ≤ tick.ask then
        let sl := tick.ask - cfg.stop_loss_pips / 10000
        ({ s with active_position := some { side := Side.BUY, entry := tick.ask, sl := sl } },
          some (Instruction.OPEN_BUY tick.ask sl))
      else cageSellBreach cfg s tick
  | none => cageSellBreach cfg s tick

/-- StraddleLogic._manage_cage: trail both stops, then test for breaches. -/
def manage_cage (cfg : StraddleConfig) (s : StraddleState) (tick : MarketData) :
    StraddleState × Option Instruction :=
  cageBuyBreach cfg (trailCage cfg s tick) tick

/-- StraddleLogic._manage_position: hard stop first, then the trailing rule. -/
def manage_position (cfg : StraddleConfig) (s : StraddleState) (tick : MarketData) :
    StraddleState × Option Instruction :=
  match s.active_position with
  | none => (s, none)
  | some pos =>
      let pips : ℚ := 1/10000
      match pos.side with
      | Side.BUY =>
          if tick.bid ≤ pos.sl then
            (reset_cage cfg { s with active_position := none } (some tick.mid),
              some Instruction.CLOSE_BUY)
          else if cfg.trailing_start_pips * pips < tick.bid - pos.entry then
            let new_sl := tick.bid - cfg.trailing_step_pips * pips
            if pos.sl < new_sl then
              ({ s with active_position := some { pos with sl := new_sl } },
                some (Instruction.MODIFY_SL new_sl))
            else (s, none)
          else (s, none)
      | Side.SELL =>
          if pos.sl ≤ tick.ask then
            (reset_cage cfg { s with active_position := none } (some tick.mid),
              some Instruction.CLOSE_SELL)
          else if cfg.trailing_start_pips * pips < pos.entry - tick.ask then
            let new_sl := tick.ask + cfg.trailing_step_pips * pips
            if new_sl < pos.sl then
              ({ s with active_position := some { pos with sl := new_sl } },
                some (Instruction.MODIFY_SL new_sl))
            else (s, none)
          else (s, none)

/-- StraddleLogic.on_tick: velocity update, storing the tick, the activation
gate, then position or cage management. -/
def on_tick (cfg : StraddleConfig) (s : StraddleState) (tick : MarketData) :
    StraddleState × Option Instruction :=
  let v := velocityUpdate s tick
  let s1 := { s with velocity := v, last_tick := some tick }
  if v < cfg.velocity_threshold_pips then
    if s1.is_active = true ∧ s1.active_position = none then
      (reset_cage cfg s1 none, none)
    else (s1, none)
  else
    let s2 :=
      if s1.is_active then s1
      else reset_cage cfg { s1 with is_active := true } (some tick.mid)
    match s2.active_position with
    | some _ => manage_position cfg s2 tick
    | none => manage_cage cfg s2 tick

/-- Feed a list of ticks through the engine, collecting the per-tick results. -/
def runTicks (cfg : StraddleConfig) (s : StraddleState) :
    List MarketData → StraddleState × List (Option Instruction)
  | [] => (s, [])
  | t :: ts =>
      let r := on_tick cfg s t
      let rest := runTicks cfg r.1 ts
      (rest.1, r.2 :: rest.2)

/-- Spec state Idle: inactive and no open position. -/
def isIdle (s : StraddleState) : Prop := s.is_active = false ∧ s.active_position = none

/-- Spec state Caged: active and no open position. -/
def isCaged (s : StraddleState) : Prop := s.is_active = true ∧ s.active_position = none

/-- Spec state Long: an open position on the buy side. -/
def isLong (s : StraddleState) : Prop :=
  ∃ p : Position, s.active_position = some p ∧ p.side = Side.BUY

/-- Spec state Short: an open position on the sell side. -/
def isShort (s : StraddleState) : Prop :=
  ∃ p : Position, s.active_position = some p ∧ p.side = Side.SELL

instance (s : StraddleState) : Decidable (isLong s) := by
  unfold isLong
  cases h : s.active_position with
  | none => exact .isFalse (by simp [h])
  | some p => exact decidable_of_iff (p.side = Side.BUY) (by simp [h])

instance (s : StraddleState) : Decidable (isShort s) := by
  unfold isShort
  cases h : s.active_position with
  | none => exact .isFalse (by simp [h])
  | some p => exact decidable_of_iff (p.side = Side.SELL) (by simp [h])

/-- A price observation in the domain stated by the spec: positive prices. -/
def validTick (t : MarketData) : Prop := 0 < t.bid ∧ 0 < t.ask

instance (t : MarketData) : Decidable (validTick t) := by
  unfold validTick
  infer_instance

/-- The reachable-state invariant: an engine that has never activated has no
stops and no position, and an activated engine always carries both stops. -/
def Inv (s : StraddleState) : Prop :=
  (s.is_active = false →
    s.virtual_buy_stop = none ∧ s.virtual_sell_stop = none ∧ s.active_position = none) ∧
  (s.is_active = true → (∃ b, s.virtual_buy_stop = some b) ∧ ∃ c, s.virtual_sell_stop = some c)

/-- Concrete caged state used to exercise the velocity-drop branch: the engine
is active with no position and a cage around 1.2. -/
def c1S : StraddleState :=
  { virtual_buy_stop := some (12003/10000)
    virtual_sell_stop := some (11999/10000)
    active_position := none
    last_tick := some { bid := 12/10, ask := 12/10, timestamp := 0 }
    velocity := 6/10
    is_active := true }

/-- A quiet tick: no mid movement over one second, so the smoothed velocity
decays to 0.42, below the 0.5 activation threshold. -/
def c1T : MarketData := { bid := 12/10, ask := 12/10, timestamp := 1 }

/-- Ticks processed while the engine stays caged at high velocity: every tick
of the list keeps the updated smoothed velocity at or above the activation
threshold and opens no position. -/
def cagedHighVel (cfg : StraddleConfig) : StraddleState → List MarketData → Prop
  | _, [] => True
  | s, t :: ts =>
      cfg.velocity_threshold_pips ≤ velocityUpdate s t ∧
      (on_tick cfg s t).1.active_position = none ∧
      cagedHighVel cfg (on_tick cfg s t).1 ts

/-- Three ticks that drive the engine from the initial state through activation
into a long position: strong one-second rallies of ten big figures. -/
def c2T1 : MarketData := { bid := 11/10, ask := 11002/10000, timestamp := 0 }

def c2T2 : MarketData := { bid := 12/10, ask := 12002/10000, timestamp := 1 }

def c2T3 : MarketData := { bid := 13/10, ask := 13002/10000, timestamp := 2 }

/-- Caged state whose buy trigger has already trailed down to 1.1002. -/
def c3S : StraddleState :=
  { virtual_buy_stop := some (11002/10000)
    virtual_sell_stop := some (10998/10000)
    active_position := none
    last_tick := some { bid := 11/10, ask := 11/10, timestamp := 0 }
    velocity := 0
    is_active := true }

/-- A slow drift up to 1.2 over a million seconds: high price, low velocity. -/
def c3T : MarketData := { bid := 12/10, ask := 12/10, timestamp := 1000000 }

/-- Caged state with a wide bracket and enough velocity to stay active. -/
def c3WS : StraddleState :=
  { virtual_buy_stop := some (13/10)
    virtual_sell_stop := some 1
    active_position := none
    last_tick := some { bid := 11/10, ask := 11/10, timestamp := 0 }
    velocity := 1
    is_active := true }

/-- A flat tick one second later: velocity decays to 0.7, still above 0.5. -/
def c3WT : MarketData := { bid := 11/10, ask := 11/10, timestamp := 1 }

/-- Long position at entry 1.1 with stop loss 1.0997, engine active. -/
def c4S : StraddleState :=
  { virtual_buy_stop := some (11002/10000)
    virtual_sell_stop := some (10998/10000)
    active_position := some { side := Side.BUY, entry := 11/10, sl := 10997/10000 }
    last_tick := some { bid := 10996/10000, ask := 10998/10000, timestamp := 0 }
    velocity := 0
    is_active := true }

/-- A quiet tick whose bid 1.0996 is below the stop loss 1.0997. -/
def c4T : MarketData := { bid := 10996/10000, ask := 10998/10000, timestamp := 1 }

/-- A fresh inactive engine that has seen one tick at price 1. -/
def c5S : StraddleState :=
  { virtual_buy_stop := none
    virtual_sell_stop := none
    active_position := none
    last_tick := some { bid := 1, ask := 1, timestamp := 0 }
    velocity := 0
    is_active := false }

/-- A malformed observation with ask strictly below bid. -/
def c5T : MarketData := { bid := 2, ask := 1, timestamp := 1 }

/-- Short position at entry 1.1 with stop loss 1.1003, engine active. -/
def c6S : StraddleState :=
  { virtual_buy_stop := some (11008/10000)
    virtual_sell_stop := some (10998/10000)
    active_position := some { side := Side.SELL, entry := 11/10, sl := 11003/10000 }
    last_tick := some { bid := 11002/10000, ask := 11004/10000, timestamp := 0 }
    velocity := 0
    is_active := true }

/-- A quiet tick whose ask 1.1004 is at or above the stop loss 1.1003. -/
def c6T : MarketData := { bid := 11002/10000, ask := 11004/10000, timestamp := 1 }

/-- Same short position as c6S but with enough stored velocity to stay above
the activation threshold on the next tick. -/
def c6WS : StraddleState :=
  { virtual_buy_stop := some (11008/10000)
    virtual_sell_stop := some (10998/10000)
    active_position := some { side := Side.SELL, entry := 11/10, sl := 11003/10000 }
    last_tick := some { bid := 11002/10000, ask := 11004/10000, timestamp := 0 }
    velocity := 1
    is_active := true }

/-- Long position at entry 1.1, stop 1.0997, with profit above the trailing
activation and a candidate stop strictly above the current stop. -/
def c7S : StraddleState :=
  { virtual_buy_stop := some (11002/10000)
    virtual_sell_stop := some (10998/10000)
    active_position := some { side := Side.BUY, entry := 11/10, sl := 10997/10000 }
    last_tick := some { bid := 11005/10000, ask := 11006/10000, timestamp := 0 }
    velocity := 0
    is_active := true }

/-- A quiet tick at bid 1.1005: the trail conditions hold but velocity is 0. -/
def c7T : MarketData := { bid := 11005/10000, ask := 11006/10000, timestamp := 1 }

/-- Same long position as c7S but with stored velocity 1, so the tick passes
the activation gate. -/
def c7WS : StraddleState :=
  { virtual_buy_stop := some (11002/10000)
    virtual_sell_stop := some (10998/10000)
    active_position := some { side := Side.BUY, entry := 11/10, sl := 10997/10000 }
    last_tick := some { bid := 11005/10000, ask := 11006/10000, timestamp := 0 }
    velocity := 1
    is_active := true }

/-- Caged state whose buy trigger 1.1004 will be breached by the next ask. -/
def c8S : StraddleState :=
  { virtual_buy_stop := some (11004/10000)
    virtual_sell_stop := some (10996/10000)
    active_position := none
    last_tick := some { bid := 11/10, ask := 11002/10000, timestamp := 0 }
    velocity := 1
    is_active := true }

/-- A fast tick whose ask 1.1008 breaches the buy trigger. -/
def c8T : MarketData := { bid := 11006/10000, ask := 11008/10000, timestamp := 1 }

/-- A tick sharing its timestamp with the previous stored observation. -/
def c9T : MarketData := { bid := 13/10, ask := 13/10, timestamp := 0 }

/-! Helper lemmas: which state fields each operation can touch. -/

theorem reset_cage_fields (cfg : StraddleConfig) (s : StraddleState) (cp : Option ℚ) :
    (reset_cage cfg s cp).active_position = s.active_position ∧
    (reset_cage cfg s cp).last_tick = s.last_tick ∧
    (reset_cage cfg s cp).velocity = s.velocity ∧
    (reset_cage cfg s cp).is_active = s.is_active := by
  rcases s with ⟨vb, vs, ap, lt, v, ia⟩
  rcases cp with _ | p <;> rcases lt with _ | l <;> simp only [reset_cage]
  all_goals repeat' split
  all_goals refine ⟨?_, ?_, ?_, ?_⟩ <;> trivial

theorem trailCage_fields (cfg : StraddleConfig) (s : StraddleState) (t : MarketData) :
    (trailCage cfg s t).active_position = s.active_position ∧
    (trailCage cfg s t).last_tick = s.last_tick ∧
    (trailCage cfg s t).velocity = s.velocity ∧
    (trailCage cfg s t).is_active = s.is_active :=
  ⟨rfl, rfl, rfl, rfl⟩

theorem reset_cage_active_position (cfg : StraddleConfig) (s : StraddleState) (cp : Option ℚ) :
    (reset_cage cfg s cp).active_position = s.active_position :=
  (reset_cage_fields cfg s cp).1

theorem reset_cage_last_tick (cfg : StraddleConfig) (s : StraddleState) (cp : Option ℚ) :
    (reset_cage cfg s cp).last_tick = s.last_tick :=
  (reset_cage_fields cfg s cp).2.1

theorem reset_cage_velocity (cfg : StraddleConfig) (s : StraddleState) (cp : Option ℚ) :
    (reset_cage cfg s cp).velocity = s.velocity :=
  (reset_cage_fields cfg s cp).2.2.1

theorem reset_cage_is_active (cfg : StraddleConfig) (s : StraddleState) (cp : Option ℚ) :
    (reset_cage cfg s cp).is_active = s.is_active :=
  (reset_cage_fields cfg s cp).2.2.2

theorem trailCage_active_position (cfg : StraddleConfig) (s : StraddleState) (t : MarketData) :
    (trailCage cfg s t).active_position = s.active_position :=
  (trailCage_fields cfg s t).1

theorem trailCage_last_tick (cfg : StraddleConfig) (s : StraddleState) (t : MarketData) :
    (trailCage cfg s t).last_tick = s.last_tick :=
  (trailCage_fields cfg s t).2.1

theorem trailCage_velocity (cfg : StraddleConfig) (s : StraddleState) (t : MarketData) :
    (trailCage cfg s t).velocity = s.velocity :=
  (trailCage_fields cfg s t).2.2.1

theorem trailCage_is_active (cfg : StraddleConfig) (s : StraddleState) (t : MarketData) :
    (trailCage cfg s t).is_active = s.is_active :=
  (trailCage_fields cfg s t).2.2.2

theorem cageSellBreach_fields (cfg : StraddleConfig) (s : StraddleState) (t : MarketData) :
    (cageSellBreach cfg s t).1.virtual_buy_stop = s.virtual_buy_stop ∧
    (cageSellBreach cfg s t).1.virtual_sell_stop = s.virtual_sell_stop ∧
    (cageSellBreach cfg s t).1.last_tick = s.last_tick ∧
    (cageSellBreach cfg s t).1.velocity = s.velocity ∧
    (cageSellBreach cfg s t).1.is_active = s.is_active := by
  rcases s with ⟨vb, vs, ap, lt, v, ia⟩
  rcases vs with _ | c <;> simp only [cageSellBreach]
  all_goals repeat' split
  all_goals refine ⟨?_, ?_, ?_, ?_, ?_⟩ <;> trivial

theorem cageBuyBreach_fields (cfg : StraddleConfig) (s : StraddleState) (t : MarketData) :
    (cageBuyBreach cfg s t).1.virtual_buy_stop = s.virtual_buy_stop ∧
    (cageBuyBreach cfg s t).1.virtual_sell_stop = s.virtual_sell_stop ∧
    (cageBuyBreach cfg s t).1.last_tick = s.last_tick ∧
    (cageBuyBreach cfg s t).1.velocity = s.velocity ∧
    (cageBuyBreach cfg s t).1.is_active = s.is_active := by
  unfold cageBuyBreach
  repeat' split
  all_goals
    refine ⟨?_, ?_, ?_, ?_, ?_⟩ <;>
      first
        | trivial
        | exact (cageSellBreach_fields cfg s t).1
        | exact (cageSellBreach_fields cfg s t).2.1
        | exact (cageSellBreach_fields cfg s t).2.2.1
        | exact (cageSellBreach_fields cfg s t).2.2.2.1
        | exact (cageSellBreach_fields cfg s t).2.2.2.2

theorem manage_cage_last_tick (cfg : StraddleConfig) (s : StraddleState) (t : MarketData) :
    (manage_cage cfg s t).1.last_tick = s.last_tick := by
  unfold manage_cage
  rw [(cageBuyBreach_fields cfg _ t).2.2.1, trailCage_last_tick]

theorem manage_cage_velocity (cfg : StraddleConfig) (s : StraddleState) (t : MarketData) :
    (manage_cage cfg s t).1.velocity = s.velocity := by
  unfold manage_cage
  rw [(cageBuyBreach_fields cfg _ t).2.2.2.1, trailCage_velocity]

theorem manage_cage_is_active (cfg : StraddleConfig) (s : StraddleState) (t : MarketData) :
    (manage_cage cfg s t).1.is_active = s.is_active := by
  unfold manage_cage
  rw [(cageBuyBreach_fields cfg _ t).2.2.2.2, trailCage_is_active]

theorem manage_position_fields (cfg : StraddleConfig) (s : StraddleState) (t : MarketData) :
    (manage_position cfg s t).1.last_tick = s.last_tick ∧
    (manage_position cfg s t).1.velocity = s.velocity ∧
    (manage_position cfg s t).1.is_active = s.is_active := by
  simp only [manage_position]
  repeat' split
  all_goals
    refine ⟨?_, ?_, ?_⟩ <;>
      first
        | trivial
        | exact (reset_cage_fields cfg _ _).2.1
        | exact (reset_cage_fields cfg _ _).2.2.1
        | exact (reset_cage_fields cfg _ _).2.2.2

theorem on_tick_velocity (cfg : StraddleConfig) (s : StraddleState) (t : MarketData) :
    (on_tick cfg s t).1.velocity = velocityUpdate s t := by
  simp only [on_tick]
  repeat' split
  all_goals try rw [(manage_position_fields cfg _ t).2.1]
  all_goals try rw [manage_cage_velocity cfg _ t]
  all_goals try rw [reset_cage_velocity cfg _ _]
  all_goals trivial

theorem on_tick_last_tick (cfg : StraddleConfig) (s : StraddleState) (t : MarketData) :
    (on_tick cfg s t).1.last_tick = some t := by
  simp only [on_tick]
  repeat' split
  all_goals try rw [(manage_position_fields cfg _ t).1]
  all_goals try rw [manage_cage_last_tick cfg _ t]
  all_goals try rw [reset_cage_last_tick cfg _ _]
  all_goals trivial

theorem on_tick_active_of_active (cfg : StraddleConfig) (s : StraddleState) (t : MarketData)
    (h : s.is_active = true) : (on_tick cfg s t).1.is_active = true := by
  simp only [on_tick]
  repeat' split
  all_goals try rw [(manage_position_fields cfg _ t).2.2]
  all_goals try rw [manage_cage_is_active cfg _ t]
  all_goals try rw [reset_cage_is_active cfg _ _]
  all_goals trivial

theorem reset_cage_some (cfg : StraddleConfig) (s : StraddleState) (p : ℚ) (hm : p ≠ 0) :
    reset_cage cfg s (some p) =
      { s with
          virtual_buy_stop := some (p + cfg.straddle_gap_pips / 10000)
          virtual_sell_stop := some (p - cfg.straddle_gap_pips / 10000) } := by
  simp only [reset_cage]
  rw [if_pos hm]

theorem reset_cage_none_of_last (cfg : StraddleConfig) (s : StraddleState) (lt : MarketData)
    (h : s.last_tick = some lt) (hm : lt.mid ≠ 0) :
    reset_cage cfg s none =
      { s with
          virtual_buy_stop := some (lt.mid + cfg.straddle_gap_pips / 10000)
          virtual_sell_stop := some (lt.mid - cfg.straddle_gap_pips / 10000) } := by
  simp only [reset_cage, h]
  rw [if_pos hm]

/-- C1: the claim as frozen is false on the code.  With the engine active and
flat and a tick that drops the smoothed velocity to 0.42 < 0.5, the engine does
NOT transition to Idle: is_active remains true and both virtual trigger levels
are re-seeded around the current mid instead of being cleared to unset.  Only
the no-instruction part of the claim holds on this tick. -/
theorem c1_velocity_drop_counterexample :
    velocityUpdate c1S c1T < defaultConfig.velocity_threshold_pips ∧
    c1S.is_active = true ∧
    c1S.active_position = none ∧
    (on_tick defaultConfig c1S c1T).1.is_active = true ∧
    (on_tick defaultConfig c1S c1T).1.virtual_buy_stop = some (6001/5000) ∧
    (on_tick defaultConfig c1S c1T).1.virtual_sell_stop = some (5999/5000) ∧
    (on_tick defaultConfig c1S c1T).2 = none := by
  norm_num [on_tick, velocityUpdate, reset_cage, defaultConfig, c1S, c1T, MarketData.mid]

/-- C1 (amended): on a tick whose updated smoothed velocity is strictly below
the activation threshold while the engine is active and holds no position, the
engine stays active (is_active remains true), re-seeds both virtual triggers
symmetrically at mid plus/minus gap around the current tick mid (for nonzero
mid), keeps no position, and emits no instruction. -/
theorem c1_velocity_drop_amended (cfg : StraddleConfig) (s : StraddleState) (t : MarketData)
    (ha : s.is_active = true) (hp : s.active_position = none)
    (hv : velocityUpdate s t < cfg.velocity_threshold_pips) (hm : t.mid ≠ 0) :
    (on_tick cfg s t).1.is_active = true ∧
    (on_tick cfg s t).1.active_position = none ∧
    (on_tick cfg s t).1.virtual_buy_stop = some (t.mid + cfg.straddle_gap_pips / 10000) ∧
    (on_tick cfg s t).1.virtual_sell_stop = some (t.mid - cfg.straddle_gap_pips / 10000) ∧
    (on_tick cfg s t).2 = none := by
  simp only [on_tick]
  rw [if_pos hv, if_pos (show _ ∧ _ from ⟨ha, hp⟩)]
  rw [reset_cage_none_of_last cfg _ t rfl hm]
  exact ⟨ha, hp, rfl, rfl, rfl⟩

/-- C1 witness: the amended theorem applied at the concrete caged state and
quiet tick above. -/
theorem c1_velocity_drop_witness :
    (c1S.is_active = true ∧ c1S.active_position = none ∧
      velocityUpdate c1S c1T < defaultConfig.velocity_threshold_pips ∧ c1T.mid ≠ 0) ∧
    ((on_tick defaultConfig c1S c1T).1.is_active = true ∧
      (on_tick defaultConfig c1S c1T).1.active_position = none ∧
      (on_tick defaultConfig c1S c1T).1.virtual_buy_stop =
        some (c1T.mid + defaultConfig.straddle_gap_pips / 10000) ∧
      (on_tick defaultConfig c1S c1T).1.virtual_sell_stop =
        some (c1T.mid - defaultConfig.straddle_gap_pips / 10000) ∧
      (on_tick defaultConfig c1S c1T).2 = none) := by
  have hv : velocityUpdate c1S c1T < defaultConfig.velocity_threshold_pips := by
    norm_num [velocityUpdate, c1S, c1T, defaultConfig, MarketData.mid]
  have hm : c1T.mid ≠ 0 := by norm_num [c1T, MarketData.mid]
  exact ⟨⟨rfl, rfl, hv, hm⟩, c1_velocity_drop_amended defaultConfig c1S c1T rfl rfl hv hm⟩

theorem trailCage_buy_eq (cfg : StraddleConfig) (s : StraddleState) (t : MarketData) (b : ℚ)
    (h : s.virtual_buy_stop = some b) :
    (trailCage cfg s t).virtual_buy_stop =
      if b ≠ 0 ∧ t.ask + cfg.straddle_gap_pips / 10000 < b
        then some (t.ask + cfg.straddle_gap_pips / 10000) else some b := by
  simp only [trailCage, h]

theorem trailCage_buy_none (cfg : StraddleConfig) (s : StraddleState) (t : MarketData)
    (h : s.virtual_buy_stop = none) :
    (trailCage cfg s t).virtual_buy_stop = none := by
  simp only [trailCage, h]

theorem trailCage_sell_eq (cfg : StraddleConfig) (s : StraddleState) (t : MarketData) (c : ℚ)
    (h : s.virtual_sell_stop = some c) :
    (trailCage cfg s t).virtual_sell_stop =
      if c ≠ 0 ∧ c < t.bid - cfg.straddle_gap_pips / 10000
        then some (t.bid - cfg.straddle_gap_pips / 10000) else some c := by
  simp only [trailCage, h]

theorem trailCage_sell_none (cfg : StraddleConfig) (s : StraddleState) (t : MarketData)
    (h : s.virtual_sell_stop = none) :
    (trailCage cfg s t).virtual_sell_stop = none := by
  simp only [trailCage, h]

theorem trailCage_stop_congr (cfg : StraddleConfig) (s : StraddleState) (t : MarketData)
    (v : ℚ) (l : Option MarketData) :
    (trailCage cfg { s with velocity := v, last_tick := l } t).virtual_buy_stop =
        (trailCage cfg s t).virtual_buy_stop ∧
    (trailCage cfg { s with velocity := v, last_tick := l } t).virtual_sell_stop =
        (trailCage cfg s t).virtual_sell_stop :=
  ⟨rfl, rfl⟩

/-! Characterizations of the position-management branch. -/

theorem manage_position_close_buy (cfg : StraddleConfig) (s : StraddleState) (t : MarketData)
    (p : Position) (hp : s.active_position = some p) (hside : p.side = Side.BUY)
    (hsl : t.bid ≤ p.sl) (hm : t.mid ≠ 0) :
    manage_position cfg s t =
      ({ s with
          active_position := none
          virtual_buy_stop := some (t.mid + cfg.straddle_gap_pips / 10000)
          virtual_sell_stop := some (t.mid - cfg.straddle_gap_pips / 10000) },
        some Instruction.CLOSE_BUY) := by
  rcases p with ⟨side, entry, sl⟩
  simp only at hside
  subst hside
  simp only [manage_position, hp]
  rw [if_pos hsl, reset_cage_some cfg _ _ hm]

theorem manage_position_close_sell (cfg : StraddleConfig) (s : StraddleState) (t : MarketData)
    (p : Position) (hp : s.active_position = some p) (hside : p.side = Side.SELL)
    (hsl : p.sl ≤ t.ask) (hm : t.mid ≠ 0) :
    manage_position cfg s t =
      ({ s with
          active_position := none
          virtual_buy_stop := some (t.mid + cfg.straddle_gap_pips / 10000)
          virtual_sell_stop := some (t.mid - cfg.straddle_gap_pips / 10000) },
        some Instruction.CLOSE_SELL) := by
  rcases p with ⟨side, entry, sl⟩
  simp only at hside
  subst hside
  simp only [manage_position, hp]
  rw [if_pos hsl, reset_cage_some cfg _ _ hm]

theorem manage_position_pos_mono (cfg : StraddleConfig) (s : StraddleState) (t : MarketData)
    (p : Position) (hp : s.active_position = some p) :
    ∀ p', (manage_position cfg s t).1.active_position = some p' →
      p'.side = p.side ∧ p'.entry = p.entry ∧
      (p.side = Side.BUY → p.sl ≤ p'.sl) ∧ (p.side = Side.SELL → p'.sl ≤ p.sl) := by
  intro p' h
  rcases p with ⟨side, entry, sl⟩
  cases side <;> simp only [manage_position, hp] at h
  all_goals rw [eq_comm] at h
  all_goals repeat' split at h
  all_goals
    first
      | (rw [reset_cage_active_position] at h; simp at h)
      | (simp only [eq_comm, hp, Option.some.injEq] at h; subst h; simp_all; try linarith)

theorem manage_position_modify_buy (cfg : StraddleConfig) (s : StraddleState) (t : MarketData)
    (p : Position) (hp : s.active_position = some p) (hside : p.side = Side.BUY)
    (hstep : 0 < cfg.trailing_step_pips) :
    ((manage_position cfg s t).2 =
        some (Instruction.MODIFY_SL (t.bid - cfg.trailing_step_pips * (1/10000))) ↔
      (cfg.trailing_start_pips * (1/10000) < t.bid - p.entry ∧
        p.sl < t.bid - cfg.trailing_step_pips * (1/10000))) := by
  rcases p with ⟨side, entry, sl⟩
  simp only at hside
  subst hside
  simp only at hp ⊢
  constructor
  · intro h
    simp only [manage_position, hp] at h
    repeat' split at h
    all_goals simp_all
  · rintro ⟨hprofit, hcand⟩
    have hbid : sl < t.bid := by nlinarith
    simp only [manage_position, hp]
    rw [if_neg (not_le.mpr hbid), if_pos hprofit, if_pos hcand]

theorem manage_position_modify_sell (cfg : StraddleConfig) (s : StraddleState) (t : MarketData)
    (p : Position) (hp : s.active_position = some p) (hside : p.side = Side.SELL)
    (hstep : 0 < cfg.trailing_step_pips) :
    ((manage_position cfg s t).2 =
        some (Instruction.MODIFY_SL (t.ask + cfg.trailing_step_pips * (1/10000))) ↔
      (cfg.trailing_start_pips * (1/10000) < p.entry - t.ask ∧
        t.ask + cfg.trailing_step_pips * (1/10000) < p.sl)) := by
  rcases p with ⟨side, entry, sl⟩
  simp only at hside
  subst hside
  simp only at hp ⊢
  constructor
  · intro h
    simp only [manage_position, hp] at h
    repeat' split at h
    all_goals simp_all
  · rintro ⟨hprofit, hcand⟩
    have hask : t.ask < sl := by nlinarith
    simp only [manage_position, hp]
    rw [if_neg (not_le.mpr hask), if_pos hprofit, if_pos hcand]

/-! Glue lemmas: how on_tick dispatches once the activation gate passes. -/

theorem on_tick_pos_step (cfg : StraddleConfig) (s : StraddleState) (t : MarketData)
    (p : Position) (hp : s.active_position = some p)
    (hv : cfg.velocity_threshold_pips ≤ velocityUpdate s t) :
    ∃ s2 : StraddleState, s2.active_position = some p ∧
      s2.is_active = true ∧
      on_tick cfg s t = manage_position cfg s2 t ∧
      s2.velocity = velocityUpdate s t ∧ s2.last_tick = some t := by
  simp only [on_tick]
  rw [if_neg (not_lt.mpr hv)]
  by_cases h : s.is_active = true
  · rw [if_pos h]
    refine ⟨{ s with velocity := velocityUpdate s t, last_tick := some t }, hp, h,
      ?_, rfl, rfl⟩
    dsimp only
    rw [hp]
  · rw [if_neg h]
    refine ⟨reset_cage cfg
        { s with velocity := velocityUpdate s t, last_tick := some t, is_active := true }
        (some t.mid), ?_, ?_, ?_, ?_, ?_⟩
    · rw [reset_cage_active_position]
      exact hp
    · rw [reset_cage_is_active]
    · rw [show (reset_cage cfg
        { s with velocity := velocityUpdate s t, last_tick := some t, is_active := true }
        (some t.mid)).active_position = some p from by rw [reset_cage_active_position]; exact hp]
    · rw [reset_cage_velocity]
    · rw [reset_cage_last_tick]

theorem on_tick_cage_step (cfg : StraddleConfig) (s : StraddleState) (t : MarketData)
    (hp : s.active_position = none) (ha : s.is_active = true)
    (hv : cfg.velocity_threshold_pips ≤ velocityUpdate s t) :
    on_tick cfg s t =
      manage_cage cfg { s with velocity := velocityUpdate s t, last_tick := some t } t := by
  simp only [on_tick]
  rw [if_neg (not_lt.mpr hv), if_pos ha]
  dsimp only
  rw [hp]

theorem on_tick_low_vel_pos (cfg : StraddleConfig) (s : StraddleState) (t : MarketData)
    (p : Position) (hp : s.active_position = some p)
    (hv : velocityUpdate s t < cfg.velocity_threshold_pips) :
    on_tick cfg s t = ({ s with velocity := velocityUpdate s t, last_tick := some t }, none) := by
  simp only [on_tick]
  rw [if_pos hv, if_neg (fun hc : _ ∧ _ => by
    have h2 := hc.2
    simp only [hp] at h2
    exact Option.noConfusion h2)]

/-- C4: the claim as frozen is false on the code.  With a long position at
entry 1.1 and stop loss 1.0997, a tick with bid 1.0996 at or below the stop
but with smoothed velocity 0 below the threshold produces NO instruction and
leaves the position open: the activation gate returns before position
management runs. -/
theorem c4_gate_counterexample :
    velocityUpdate c4S c4T < defaultConfig.velocity_threshold_pips ∧
    c4S.active_position = some { side := Side.BUY, entry := 11/10, sl := 10997/10000 } ∧
    c4T.bid ≤ (10997/10000 : ℚ) ∧
    (on_tick defaultConfig c4S c4T).2 = none ∧
    (on_tick defaultConfig c4S c4T).1.active_position = c4S.active_position := by
  norm_num [on_tick, velocityUpdate, defaultConfig, c4S, c4T, MarketData.mid,
    Option.some_ne_none]

/-- C4 (amended): position management runs only on ticks whose updated
smoothed velocity is at or above the activation threshold.  On a tick whose
updated velocity is below the threshold while a position is open, the engine
only records the new velocity and observation: the position (including any
breached hard stop) is left untouched and no instruction is emitted. -/
theorem c4_gate_amended (cfg : StraddleConfig) (s : StraddleState) (t : MarketData)
    (p : Position) (hp : s.active_position = some p)
    (hv : velocityUpdate s t < cfg.velocity_threshold_pips) :
    on_tick cfg s t = ({ s with velocity := velocityUpdate s t, last_tick := some t }, none) :=
  on_tick_low_vel_pos cfg s t p hp hv

/-- C4 witness: the amended theorem applied at the concrete long position and
quiet stop-breaching tick above. -/
theorem c4_gate_witness :
    (c4S.active_position = some { side := Side.BUY, entry := 11/10, sl := 10997/10000 } ∧
      velocityUpdate c4S c4T < defaultConfig.velocity_threshold_pips) ∧
    on_tick defaultConfig c4S c4T =
      ({ c4S with velocity := velocityUpdate c4S c4T, last_tick := some c4T }, none) := by
  have hv : velocityUpdate c4S c4T < defaultConfig.velocity_threshold_pips := by
    norm_num [velocityUpdate, c4S, c4T, defaultConfig, MarketData.mid]
  exact ⟨⟨rfl, hv⟩, c4_gate_amended defaultConfig c4S c4T _ rfl hv⟩

/-- C5: the claim as frozen is false on the code.  There is no input
validation: an observation with ask 1 strictly below bid 2 is consumed like
any other tick — it is stored as the previous observation, drives the
smoothed velocity from 0 to 1500, activates the engine and trails the fresh
triggers into an inverted bracket (buy trigger 1.0002 below the sell trigger
1.9998) computed from the malformed prices.  No InvalidObservation condition
exists in the source. -/
theorem c5_validation_counterexample :
    c5T.ask < c5T.bid ∧
    c5S.velocity = 0 ∧
    (on_tick defaultConfig c5S c5T).1.velocity = 1500 ∧
    (on_tick defaultConfig c5S c5T).1.last_tick = some c5T ∧
    (on_tick defaultConfig c5S c5T).1.is_active = true ∧
    (on_tick defaultConfig c5S c5T).1.virtual_buy_stop = some (5001/5000) ∧
    (on_tick defaultConfig c5S c5T).1.virtual_sell_stop = some (9999/5000) := by
  norm_num [on_tick, velocityUpdate, reset_cage, manage_cage, trailCage, cageBuyBreach,
    cageSellBreach, defaultConfig, c5S, c5T, MarketData.mid, abs_of_nonneg]

/-- C5 (amended): the engine performs no boundary validation.  Every
observation, including one with ask < bid, is processed by the ordinary
transition: it is stored as the previous observation and the smoothed
velocity is recomputed from it; no rejection, clamping or error condition is
raised.  (The output type of on_tick has no error alternative at all.) -/
theorem c5_validation_amended (cfg : StraddleConfig) (s : StraddleState) (t : MarketData)
    (_hinvalid : t.ask < t.bid) :
    (on_tick cfg s t).1.last_tick = some t ∧
    (on_tick cfg s t).1.velocity = velocityUpdate s t :=
  ⟨on_tick_last_tick cfg s t, on_tick_velocity cfg s t⟩

/-- C5 witness: the amended theorem applied at the malformed tick above. -/
theorem c5_validation_witness :
    c5T.ask < c5T.bid ∧
    ((on_tick defaultConfig c5S c5T).1.last_tick = some c5T ∧
      (on_tick defaultConfig c5S c5T).1.velocity = velocityUpdate c5S c5T) := by
  have h : c5T.ask < c5T.bid := by norm_num [c5T]
  exact ⟨h, c5_validation_amended defaultConfig c5S c5T h⟩

/-- C9: confirmed.  When no previous observation exists, or the elapsed time
to the previous observation is zero or negative, the smoothed velocity is
unchanged by the tick; and in every case the incoming observation replaces
the stored previous observation. -/
theorem c9_velocity_guard (cfg : StraddleConfig) (s : StraddleState) (t : MarketData) :
    (s.last_tick = none → (on_tick cfg s t).1.velocity = s.velocity) ∧
    (∀ lt, s.last_tick = some lt → t.timestamp - lt.timestamp ≤ 0 →
      (on_tick cfg s t).1.velocity = s.velocity) ∧
    (on_tick cfg s t).1.last_tick = some t := by
  refine ⟨?_, ?_, on_tick_last_tick cfg s t⟩
  · intro h
    rw [on_tick_velocity]
    simp only [velocityUpdate, h]
  · intro lt h hle
    rw [on_tick_velocity]
    simp only [velocityUpdate, h]
    rw [if_neg (not_lt.mpr hle)]

/-- C9 witness: the guard applied to a first-ever tick and to a tick sharing
its timestamp with the stored observation. -/
theorem c9_velocity_guard_witness :
    ((on_tick defaultConfig initState c9T).1.velocity = initState.velocity) ∧
    ((on_tick defaultConfig c1S c9T).1.velocity = c1S.velocity) := by
  refine ⟨(c9_velocity_guard defaultConfig initState c9T).1 rfl, ?_⟩
  exact (c9_velocity_guard defaultConfig c1S c9T).2.1
    { bid := 12/10, ask := 12/10, timestamp := 0 } rfl (by norm_num [c9T])

/-- C6: the claim as frozen is false on the code.  A short position at entry
1.1 with stop loss 1.1003 sees a tick whose ask 1.1004 is at or above the
stop — the hard stop "is hit" — but the tick's smoothed velocity 0 is below
the activation threshold, so the gate returns first: no CLOSE_SELL is
emitted and the position stays open. -/
theorem c6_close_counterexample :
    velocityUpdate c6S c6T < defaultConfig.velocity_threshold_pips ∧
    c6S.active_position = some { side := Side.SELL, entry := 11/10, sl := 11003/10000 } ∧
    (11003/10000 : ℚ) ≤ c6T.ask ∧
    (on_tick defaultConfig c6S c6T).2 = none ∧
    (on_tick defaultConfig c6S c6T).1.active_position = c6S.active_position := by
  norm_num [on_tick, velocityUpdate, defaultConfig, c6S, c6T, MarketData.mid,
    Option.some_ne_none]

/-- C6 (amended): on any tick that passes the velocity gate (updated smoothed
velocity at or above the threshold, with nonzero mid), a breached hard stop
closes the position: the matching CLOSE_BUY or CLOSE_SELL is emitted, the
position is cleared, and the engine re-enters Caged — is_active stays true and
fresh triggers are placed symmetrically at mid plus/minus gap around the
closing tick's mid; it never re-enters Idle after a close. -/
theorem c6_close_amended (cfg : StraddleConfig) (s : StraddleState) (t : MarketData)
    (p : Position) (hp : s.active_position = some p)
    (hv : cfg.velocity_threshold_pips ≤ velocityUpdate s t) (hm : t.mid ≠ 0) :
    (p.side = Side.BUY → t.bid ≤ p.sl →
      (on_tick cfg s t).2 = some Instruction.CLOSE_BUY ∧
      (on_tick cfg s t).1.active_position = none ∧
      (on_tick cfg s t).1.is_active = true ∧
      (on_tick cfg s t).1.virtual_buy_stop = some (t.mid + cfg.straddle_gap_pips / 10000) ∧
      (on_tick cfg s t).1.virtual_sell_stop = some (t.mid - cfg.straddle_gap_pips / 10000)) ∧
    (p.side = Side.SELL → p.sl ≤ t.ask →
      (on_tick cfg s t).2 = some Instruction.CLOSE_SELL ∧
      (on_tick cfg s t).1.active_position = none ∧
      (on_tick cfg s t).1.is_active = true ∧
      (on_tick cfg s t).1.virtual_buy_stop = some (t.mid + cfg.straddle_gap_pips / 10000) ∧
      (on_tick cfg s t).1.virtual_sell_stop = some (t.mid - cfg.straddle_gap_pips / 10000)) := by
  obtain ⟨s2, hp2, ha2, heq, _, _⟩ := on_tick_pos_step cfg s t p hp hv
  constructor
  · intro hside hsl
    rw [heq, manage_position_close_buy cfg s2 t p hp2 hside hsl hm]
    exact ⟨rfl, rfl, ha2, rfl, rfl⟩
  · intro hside hsl
    rw [heq, manage_position_close_sell cfg s2 t p hp2 hside hsl hm]
    exact ⟨rfl, rfl, ha2, rfl, rfl⟩

/-- C6 witness: the amended theorem applied at the short position whose stop
is breached by a fast tick. -/
theorem c6_close_witness :
    (c6WS.active_position = some { side := Side.SELL, entry := 11/10, sl := 11003/10000 } ∧
      defaultConfig.velocity_threshold_pips ≤ velocityUpdate c6WS c6T ∧
      c6T.mid ≠ 0 ∧ (11003/10000 : ℚ) ≤ c6T.ask) ∧
    ((on_tick defaultConfig c6WS c6T).2 = some Instruction.CLOSE_SELL ∧
      (on_tick defaultConfig c6WS c6T).1.active_position = none ∧
      (on_tick defaultConfig c6WS c6T).1.is_active = true ∧
      (on_tick defaultConfig c6WS c6T).1.virtual_buy_stop =
        some (c6T.mid + defaultConfig.straddle_gap_pips / 10000) ∧
      (on_tick defaultConfig c6WS c6T).1.virtual_sell_stop =
        some (c6T.mid - defaultConfig.straddle_gap_pips / 10000)) := by
  have hv : defaultConfig.velocity_threshold_pips ≤ velocityUpdate c6WS c6T := by
    norm_num [velocityUpdate, c6WS, c6T, defaultConfig, MarketData.mid]
  have hm : c6T.mid ≠ 0 := by norm_num [c6T, MarketData.mid]
  have hsl : (11003/10000 : ℚ) ≤ c6T.ask := by norm_num [c6T]
  exact ⟨⟨rfl, hv, hm, hsl⟩,
    (c6_close_amended defaultConfig c6WS c6T _ rfl hv hm).2 rfl hsl⟩

/-- C7: the claim as frozen is false on the code.  A long position at entry
1.1 with stop 1.0997 sees a tick with bid 1.1005: unrealized profit 0.0005
exceeds the trailing-activation distance 0.0001 and the candidate stop
1.10045 is strictly tighter than 1.0997, yet no MODIFY_SL is emitted because
the tick's smoothed velocity 0 is below the activation threshold and the
gate returns first. -/
theorem c7_stop_counterexample :
    c7S.active_position = some { side := Side.BUY, entry := 11/10, sl := 10997/10000 } ∧
    defaultConfig.trailing_start_pips * (1/10000) < c7T.bid - (11/10 : ℚ) ∧
    (10997/10000 : ℚ) < c7T.bid - defaultConfig.trailing_step_pips * (1/10000) ∧
    velocityUpdate c7S c7T < defaultConfig.velocity_threshold_pips ∧
    (on_tick defaultConfig c7S c7T).2 = none := by
  norm_num [on_tick, velocityUpdate, defaultConfig, c7S, c7T, MarketData.mid,
    Option.some_ne_none]

/-- C7 (amended): for the life of a single open position the recorded stop
loss only moves in the profit-favorable direction (per tick: the position's
side and entry never change, the stop only rises for a long and only falls
for a short); and on ticks that pass the velocity gate, with a positive
trailing step, a MODIFY_SL is emitted exactly when unrealized profit exceeds
the trailing-activation distance and the candidate stop is strictly tighter
than the current stop. -/
theorem c7_stop_amended (cfg : StraddleConfig) (s : StraddleState) (t : MarketData)
    (p : Position) (hp : s.active_position = some p) :
    (∀ p', (on_tick cfg s t).1.active_position = some p' →
      p'.side = p.side ∧ p'.entry = p.entry ∧
      (p.side = Side.BUY → p.sl ≤ p'.sl) ∧ (p.side = Side.SELL → p'.sl ≤ p.sl)) ∧
    (cfg.velocity_threshold_pips ≤ velocityUpdate s t → 0 < cfg.trailing_step_pips →
      (p.side = Side.BUY →
        ((on_tick cfg s t).2 =
            some (Instruction.MODIFY_SL (t.bid - cfg.trailing_step_pips * (1/10000))) ↔
          (cfg.trailing_start_pips * (1/10000) < t.bid - p.entry ∧
            p.sl < t.bid - cfg.trailing_step_pips * (1/10000)))) ∧
      (p.side = Side.SELL →
        ((on_tick cfg s t).2 =
            some (Instruction.MODIFY_SL (t.ask + cfg.trailing_step_pips * (1/10000))) ↔
          (cfg.trailing_start_pips * (1/10000) < p.entry - t.ask ∧
            t.ask + cfg.trailing_step_pips * (1/10000) < p.sl)))) := by
  constructor
  · intro p' h
    by_cases hv : velocityUpdate s t < cfg.velocity_threshold_pips
    · rw [on_tick_low_vel_pos cfg s t p hp hv] at h
      simp only [hp, Option.some.injEq] at h
      subst h
      exact ⟨rfl, rfl, fun _ => le_refl _, fun _ => le_refl _⟩
    · obtain ⟨s2, hp2, _, heq, _, _⟩ :=
        on_tick_pos_step cfg s t p hp (not_lt.mp hv)
      rw [heq] at h
      exact manage_position_pos_mono cfg s2 t p hp2 p' h
  · intro hv hstep
    obtain ⟨s2, hp2, _, heq, _, _⟩ := on_tick_pos_step cfg s t p hp hv
    rw [heq]
    exact ⟨fun hside => manage_position_modify_buy cfg s2 t p hp2 hside hstep,
      fun hside => manage_position_modify_sell cfg s2 t p hp2 hside hstep⟩

/-- C7 witness: the amended characterization applied at the long position and
fast tick where both trail conditions hold, yielding the MODIFY_SL. -/
theorem c7_stop_witness :
    (c7WS.active_position = some { side := Side.BUY, entry := 11/10, sl := 10997/10000 } ∧
      defaultConfig.velocity_threshold_pips ≤ velocityUpdate c7WS c7T ∧
      0 < defaultConfig.trailing_step_pips) ∧
    (on_tick defaultConfig c7WS c7T).2 =
      some (Instruction.MODIFY_SL (c7T.bid - defaultConfig.trailing_step_pips * (1/10000))) := by
  have hv : defaultConfig.velocity_threshold_pips ≤ velocityUpdate c7WS c7T := by
    norm_num [velocityUpdate, c7WS, c7T, defaultConfig, MarketData.mid]
  have hstep : 0 < defaultConfig.trailing_step_pips := by norm_num [defaultConfig]
  refine ⟨⟨rfl, hv, hstep⟩, ?_⟩
  exact (((c7_stop_amended defaultConfig c7WS c7T _ rfl).2 hv hstep).1 rfl).mpr
    (by constructor <;> norm_num [defaultConfig, c7T])

/-- C8: confirmed.  While caged (active, no position) on a tick that passes
the velocity gate, with the post-trailing triggers live: an ask at or above
the buy trigger opens a long at the ask with stop = ask minus the stop-loss
distance; otherwise a bid at or below the sell trigger opens a short at the
bid with stop = bid plus the stop-loss distance; and when both breach
conditions hold on one tick the buy side wins. -/
theorem c8_breach (cfg : StraddleConfig) (s : StraddleState) (t : MarketData) (b c : ℚ)
    (ha : s.is_active = true) (hp : s.active_position = none)
    (hv : cfg.velocity_threshold_pips ≤ velocityUpdate s t)
    (hb : (trailCage cfg s t).virtual_buy_stop = some b)
    (hc : (trailCage cfg s t).virtual_sell_stop = some c)
    (hbne : b ≠ 0) (hcne : c ≠ 0) :
    (b ≤ t.ask →
      (on_tick cfg s t).2 =
        some (Instruction.OPEN_BUY t.ask (t.ask - cfg.stop_loss_pips / 10000)) ∧
      (on_tick cfg s t).1.active_position =
        some { side := Side.BUY, entry := t.ask, sl := t.ask - cfg.stop_loss_pips / 10000 } ∧
      isLong (on_tick cfg s t).1) ∧
    (t.ask < b → t.bid ≤ c →
      (on_tick cfg s t).2 =
        some (Instruction.OPEN_SELL t.bid (t.bid + cfg.stop_loss_pips / 10000)) ∧
      (on_tick cfg s t).1.active_position =
        some { side := Side.SELL, entry := t.bid, sl := t.bid + cfg.stop_loss_pips / 10000 } ∧
      isShort (on_tick cfg s t).1) ∧
    (b ≤ t.ask → t.bid ≤ c →
      (on_tick cfg s t).2 =
        some (Instruction.OPEN_BUY t.ask (t.ask - cfg.stop_loss_pips / 10000))) := by
  have heq := on_tick_cage_step cfg s t hp ha hv
  have hb1 : (trailCage cfg
      { s with velocity := velocityUpdate s t, last_tick := some t } t).virtual_buy_stop =
      some b := (trailCage_stop_congr cfg s t _ _).1.trans hb
  have hc1 : (trailCage cfg
      { s with velocity := velocityUpdate s t, last_tick := some t } t).virtual_sell_stop =
      some c := (trailCage_stop_congr cfg s t _ _).2.trans hc
  rw [heq]
  unfold manage_cage
  refine ⟨?_, ?_, ?_⟩
  · intro hask
    simp only [cageBuyBreach, hb1]
    rw [if_pos ⟨hbne, hask⟩]
    exact ⟨rfl, rfl, ⟨_, rfl, rfl⟩⟩
  · intro hask hbid
    simp only [cageBuyBreach, hb1]
    rw [if_neg (fun hcond : _ ∧ _ => absurd hcond.2 (not_le.mpr hask))]
    simp only [cageSellBreach, hc1]
    rw [if_pos ⟨hcne, hbid⟩]
    exact ⟨rfl, rfl, ⟨_, rfl, rfl⟩⟩
  · intro hask _
    simp only [cageBuyBreach, hb1]
    rw [if_pos ⟨hbne, hask⟩]

/-- C8 witness: the breach rule applied at a caged state whose trailed buy
trigger 1.1004 is breached by ask 1.1008. -/
theorem c8_breach_witness :
    (c8S.is_active = true ∧ c8S.active_position = none ∧
      defaultConfig.velocity_threshold_pips ≤ velocityUpdate c8S c8T ∧
      (trailCage defaultConfig c8S c8T).virtual_buy_stop = some (11004/10000) ∧
      (trailCage defaultConfig c8S c8T).virtual_sell_stop = some (11004/10000) ∧
      (11004/10000 : ℚ) ≤ c8T.ask) ∧
    ((on_tick defaultConfig c8S c8T).2 =
        some (Instruction.OPEN_BUY c8T.ask (c8T.ask - defaultConfig.stop_loss_pips / 10000)) ∧
      (on_tick defaultConfig c8S c8T).1.active_position =
        some (Position.mk Side.BUY c8T.ask (c8T.ask - defaultConfig.stop_loss_pips / 10000)) ∧
      isLong (on_tick defaultConfig c8S c8T).1) := by
  have hv : defaultConfig.velocity_threshold_pips ≤ velocityUpdate c8S c8T := by
    norm_num [velocityUpdate, c8S, c8T, defaultConfig, MarketData.mid, abs_of_nonneg]
  have hb : (trailCage defaultConfig c8S c8T).virtual_buy_stop = some (11004/10000) := by
    norm_num [trailCage, c8S, c8T, defaultConfig]
  have hc : (trailCage defaultConfig c8S c8T).virtual_sell_stop = some (11004/10000) := by
    norm_num [trailCage, c8S, c8T, defaultConfig]
  have hask : (11004/10000 : ℚ) ≤ c8T.ask := by norm_num [c8T]
  exact ⟨⟨rfl, rfl, hv, hb, hc, hask⟩,
    (c8_breach defaultConfig c8S c8T (11004/10000) (11004/10000) rfl rfl hv hb hc
      (by norm_num) (by norm_num)).1 hask⟩

theorem ite_some_le (cond : Prop) [Decidable cond] (x b : ℚ) (hx : cond → x ≤ b) :
    ∃ b', (if cond then some x else some b) = some b' ∧ b' ≤ b := by
  split_ifs with h
  exacts [⟨x, rfl, hx h⟩, ⟨b, rfl, le_refl b⟩]

theorem ite_some_ge (cond : Prop) [Decidable cond] (x c : ℚ) (hx : cond → c ≤ x) :
    ∃ c', (if cond then some x else some c) = some c' ∧ c ≤ c' := by
  split_ifs with h
  exacts [⟨x, rfl, hx h⟩, ⟨c, rfl, le_refl c⟩]

theorem caged_step_stops (cfg : StraddleConfig) (s : StraddleState) (t : MarketData) (b c : ℚ)
    (ha : s.is_active = true) (hp : s.active_position = none)
    (hv : cfg.velocity_threshold_pips ≤ velocityUpdate s t)
    (hb : s.virtual_buy_stop = some b) (hc : s.virtual_sell_stop = some c) :
    ∃ b' c', (on_tick cfg s t).1.virtual_buy_stop = some b' ∧ b' ≤ b ∧
      (on_tick cfg s t).1.virtual_sell_stop = some c' ∧ c ≤ c' := by
  rw [on_tick_cage_step cfg s t hp ha hv]
  unfold manage_cage
  obtain ⟨h1, h2, _, _, _⟩ := cageBuyBreach_fields cfg
    (trailCage cfg { s with velocity := velocityUpdate s t, last_tick := some t } t) t
  rw [h1, h2]
  rw [trailCage_buy_eq cfg
      { s with velocity := velocityUpdate s t, last_tick := some t } t b hb,
    trailCage_sell_eq cfg
      { s with velocity := velocityUpdate s t, last_tick := some t } t c hc]
  obtain ⟨b', hb', hble⟩ :=
    ite_some_le (b ≠ 0 ∧ t.ask + cfg.straddle_gap_pips / 10000 < b)
      (t.ask + cfg.straddle_gap_pips / 10000) b (fun h => le_of_lt h.2)
  obtain ⟨c', hc', hcge⟩ :=
    ite_some_ge (c ≠ 0 ∧ c < t.bid - cfg.straddle_gap_pips / 10000)
      (t.bid - cfg.straddle_gap_pips / 10000) c (fun h => le_of_lt h.2)
  exact ⟨b', c', hb', hble, hc', hcge⟩

/-- C3: the claim as frozen is false on the code.  A caged engine (active, no
position) whose buy trigger has trailed down to 1.1002 sees a slow drift up
to 1.2: the tick's smoothed velocity 0.0003 is below the threshold, so the
gate re-seeds the cage around the new mid and the buy trigger RISES to
1.2002 while the engine remains active with no position and no breach has
occurred. -/
theorem c3_ratchet_counterexample :
    c3S.is_active = true ∧ c3S.active_position = none ∧
    c3S.virtual_buy_stop = some (11002/10000) ∧
    (on_tick defaultConfig c3S c3T).1.is_active = true ∧
    (on_tick defaultConfig c3S c3T).1.active_position = none ∧
    (on_tick defaultConfig c3S c3T).1.virtual_buy_stop = some (12002/10000) ∧
    (11002/10000 : ℚ) < (12002/10000 : ℚ) := by
  norm_num [on_tick, velocityUpdate, reset_cage, defaultConfig, c3S, c3T, MarketData.mid,
    abs_of_nonneg]

/-- C3 (amended): across any sequence of ticks on each of which the updated
smoothed velocity stays at or above the activation threshold and no position
opens, a caged engine's buy trigger is non-increasing and its sell trigger is
non-decreasing.  (A tick that drops below the threshold instead re-anchors
both triggers around its mid and can widen or raise them, as the
counterexample shows.) -/
theorem c3_ratchet_amended (cfg : StraddleConfig) (ticks : List MarketData)
    (s : StraddleState) (b c : ℚ) (ha : s.is_active = true) (hp : s.active_position = none)
    (hb : s.virtual_buy_stop = some b) (hc : s.virtual_sell_stop = some c)
    (hrun : cagedHighVel cfg s ticks) :
    ∃ b' c', (runTicks cfg s ticks).1.virtual_buy_stop = some b' ∧ b' ≤ b ∧
      (runTicks cfg s ticks).1.virtual_sell_stop = some c' ∧ c ≤ c' := by
  induction ticks generalizing s b c with
  | nil => exact ⟨b, c, hb, le_refl b, hc, le_refl c⟩
  | cons t ts ih =>
      obtain ⟨hv, hp', hrest⟩ := hrun
      obtain ⟨b1, c1, hb1, hble, hc1, hcge⟩ := caged_step_stops cfg s t b c ha hp hv hb hc
      have ha' : (on_tick cfg s t).1.is_active = true := on_tick_active_of_active cfg s t ha
      obtain ⟨b2, c2, hb2, h2le, hc2, h2ge⟩ :=
        ih (on_tick cfg s t).1 b1 c1 ha' hp' hb1 hc1 hrest
      exact ⟨b2, c2, hb2, le_trans h2le hble, hc2, le_trans hcge h2ge⟩

/-- C3 witness: the amended monotonicity applied to a one-tick high-velocity
run in which the buy trigger trails from 1.3 down to 1.1002 and the sell
trigger trails from 1 up to 1.0998. -/
theorem c3_ratchet_witness :
    (c3WS.is_active = true ∧ c3WS.active_position = none ∧
      c3WS.virtual_buy_stop = some (13/10) ∧ c3WS.virtual_sell_stop = some 1 ∧
      cagedHighVel defaultConfig c3WS [c3WT]) ∧
    (∃ b' c',
      (runTicks defaultConfig c3WS [c3WT]).1.virtual_buy_stop = some b' ∧ b' ≤ 13/10 ∧
      (runTicks defaultConfig c3WS [c3WT]).1.virtual_sell_stop = some c' ∧ 1 ≤ c') := by
  have hrun : cagedHighVel defaultConfig c3WS [c3WT] := by
    norm_num [cagedHighVel, on_tick, velocityUpdate, manage_cage, trailCage, cageBuyBreach,
      cageSellBreach, defaultConfig, c3WS, c3WT, MarketData.mid, abs_of_nonneg,
      Option.some_ne_none]
  exact ⟨⟨rfl, rfl, rfl, rfl, hrun⟩,
    c3_ratchet_amended defaultConfig [c3WT] c3WS (13/10) 1 rfl rfl rfl rfl hrun⟩

theorem on_tick_ignores_inert (cfg : StraddleConfig) (tp ms : ℚ) (s : StraddleState)
    (t : MarketData) :
    on_tick { cfg with take_profit_pips := tp, max_spread_pips := ms } s t =
      on_tick cfg s t := by
  rcases cfg with ⟨g, sl, tpp, tstart, tstep, vt, msp, lot⟩
  rfl

/-- C10: confirmed.  The take-profit distance and the maximum-spread
parameter are never consulted: two runs over the same tick list whose
configurations differ only in those two fields produce the same final state
and the same instruction sequence. -/
theorem c10_unused_params (cfg : StraddleConfig) (tp ms : ℚ) (s : StraddleState)
    (ticks : List MarketData) :
    runTicks { cfg with take_profit_pips := tp, max_spread_pips := ms } s ticks =
      runTicks cfg s ticks := by
  induction ticks generalizing s with
  | nil => rfl
  | cons t ts ih =>
      simp only [runTicks]
      rw [on_tick_ignores_inert, ih]

theorem inv_of_active (s : StraddleState) (ha : s.is_active = true)
    (hb : ∃ b, s.virtual_buy_stop = some b) (hc : ∃ c, s.virtual_sell_stop = some c) :
    Inv s :=
  ⟨fun hf => Bool.noConfusion (ha.symm.trans hf), fun _ => ⟨hb, hc⟩⟩

theorem inv_manage_position (cfg : StraddleConfig) (s : StraddleState) (t : MarketData)
    (ha : s.is_active = true) (hb : ∃ b, s.virtual_buy_stop = some b)
    (hc : ∃ c, s.virtual_sell_stop = some c) (hmid : t.mid ≠ 0) :
    Inv (manage_position cfg s t).1 := by
  rcases hb with ⟨b, hb⟩
  rcases hc with ⟨c, hc⟩
  rcases hq : s.active_position with _ | p
  · simp only [manage_position, hq]
    exact inv_of_active s ha ⟨b, hb⟩ ⟨c, hc⟩
  · rcases p with ⟨side, entry, sl⟩
    cases side <;> simp only [manage_position, hq] <;> repeat' split
    all_goals try rw [reset_cage_some cfg _ _ hmid]
    all_goals
      first
        | exact inv_of_active _ ha ⟨_, rfl⟩ ⟨_, rfl⟩
        | exact inv_of_active _ ha ⟨b, hb⟩ ⟨c, hc⟩

theorem inv_manage_cage (cfg : StraddleConfig) (s : StraddleState) (t : MarketData)
    (ha : s.is_active = true) (hb : ∃ b, s.virtual_buy_stop = some b)
    (hc : ∃ c, s.virtual_sell_stop = some c) :
    Inv (manage_cage cfg s t).1 := by
  rcases hb with ⟨b, hb⟩
  rcases hc with ⟨c, hc⟩
  apply inv_of_active
  · rw [manage_cage_is_active]
    exact ha
  · unfold manage_cage
    rw [(cageBuyBreach_fields cfg (trailCage cfg s t) t).1, trailCage_buy_eq cfg s t b hb]
    obtain ⟨b', hb', _⟩ :=
      ite_some_le (b ≠ 0 ∧ t.ask + cfg.straddle_gap_pips / 10000 < b)
        (t.ask + cfg.straddle_gap_pips / 10000) b (fun h => le_of_lt h.2)
    exact ⟨b', hb'⟩
  · unfold manage_cage
    rw [(cageBuyBreach_fields cfg (trailCage cfg s t) t).2.1, trailCage_sell_eq cfg s t c hc]
    obtain ⟨c', hc', _⟩ :=
      ite_some_ge (c ≠ 0 ∧ c < t.bid - cfg.straddle_gap_pips / 10000)
        (t.bid - cfg.straddle_gap_pips / 10000) c (fun h => le_of_lt h.2)
    exact ⟨c', hc'⟩

theorem inv_preserved (cfg : StraddleConfig) (s : StraddleState) (t : MarketData)
    (hs : Inv s) (ht : validTick t) : Inv (on_tick cfg s t).1 := by
  have hmid : t.mid ≠ 0 := by
    rcases ht with ⟨h1, h2⟩
    have : 0 < t.mid := by
      unfold MarketData.mid
      linarith
    exact ne_of_gt this
  by_cases hv : velocityUpdate s t < cfg.velocity_threshold_pips
  · by_cases hact : s.is_active = true
    · by_cases hpos : s.active_position = none
      · have heq : on_tick cfg s t =
            (reset_cage cfg { s with velocity := velocityUpdate s t, last_tick := some t }
              none, none) := by
          simp only [on_tick]
          rw [if_pos hv, if_pos (show _ ∧ _ from ⟨hact, hpos⟩)]
        rw [heq]
        rw [reset_cage_none_of_last cfg _ t rfl hmid]
        exact inv_of_active _ hact ⟨_, rfl⟩ ⟨_, rfl⟩
      · obtain ⟨p, hp⟩ : ∃ p, s.active_position = some p := by
          rcases hq : s.active_position with _ | p
          · exact absurd hq hpos
          · exact ⟨p, rfl⟩
        rw [on_tick_low_vel_pos cfg s t p hp hv]
        exact hs
    · have heq : on_tick cfg s t =
          ({ s with velocity := velocityUpdate s t, last_tick := some t }, none) := by
        simp only [on_tick]
        rw [if_pos hv, if_neg (fun hc : _ ∧ _ => hact hc.1)]
      rw [heq]
      exact hs
  · by_cases hpos : s.active_position = none
    · by_cases hact : s.is_active = true
      · rw [on_tick_cage_step cfg s t hpos hact (not_lt.mp hv)]
        obtain ⟨hb, hc⟩ := hs.2 hact
        exact inv_manage_cage cfg _ t hact hb hc
      · have heq : on_tick cfg s t =
            manage_cage cfg
              (reset_cage cfg
                { s with velocity := velocityUpdate s t, last_tick := some t, is_active := true }
                (some t.mid)) t := by
          simp only [on_tick]
          rw [if_neg hv, if_neg hact]
          rw [show (reset_cage cfg
              { s with velocity := velocityUpdate s t, last_tick := some t, is_active := true }
              (some t.mid)).active_position = none from by
            rw [reset_cage_active_position]; exact hpos]
        rw [heq]
        rw [reset_cage_some cfg _ _ hmid]
        exact inv_manage_cage cfg _ t rfl ⟨_, rfl⟩ ⟨_, rfl⟩
    · have hact : s.is_active = true := by
        by_contra hf
        have hfa : s.is_active = false := by
          cases h : s.is_active
          · rfl
          · exact absurd h hf
        exact hpos (hs.1 hfa).2.2
      obtain ⟨p, hp⟩ : ∃ p, s.active_position = some p := by
        rcases hq : s.active_position with _ | p
        · exact absurd hq hpos
        · exact ⟨p, rfl⟩
      have heq : on_tick cfg s t =
          manage_position cfg { s with velocity := velocityUpdate s t, last_tick := some t }
            t := by
        simp only [on_tick]
        rw [if_neg hv, if_pos hact]
        dsimp only
        rw [hp]
      rw [heq]
      obtain ⟨hb, hc⟩ := hs.2 hact
      exact inv_manage_position cfg _ t hact hb hc hmid

theorem inv_runTicks (cfg : StraddleConfig) (ticks : List MarketData) (s : StraddleState)
    (hs : Inv s) (hval : ∀ t ∈ ticks, validTick t) : Inv (runTicks cfg s ticks).1 := by
  induction ticks generalizing s with
  | nil => exact hs
  | cons t ts ih =>
      exact ih _ (inv_preserved cfg s t hs (hval t (by simp)))
        (fun x hx => hval x (by simp [hx]))

theorem inv_initState : Inv initState :=
  ⟨fun _ => ⟨rfl, rfl, rfl⟩, fun h => absurd h (by decide)⟩

theorem statePartition (s : StraddleState) :
    (isIdle s ∨ isCaged s ∨ isLong s ∨ isShort s) ∧
    (¬ (isIdle s ∧ isCaged s)) ∧ (¬ (isIdle s ∧ isLong s)) ∧ (¬ (isIdle s ∧ isShort s)) ∧
    (¬ (isCaged s ∧ isLong s)) ∧ (¬ (isCaged s ∧ isShort s)) ∧ (¬ (isLong s ∧ isShort s)) := by
  unfold isIdle isCaged isLong isShort
  rcases hq : s.active_position with _ | p
  · cases hb : s.is_active <;> simp [hq, hb]
  · cases hsd : p.side <;> simp [hq, hsd]

theorem posIffLongShort (s : StraddleState) :
    s.active_position ≠ none ↔ (isLong s ∨ isShort s) := by
  unfold isLong isShort
  rcases hq : s.active_position with _ | p
  · simp [hq]
  · cases hsd : p.side <;> simp [hq, hsd]

/-- C2: the claim as frozen is false on the code.  The three-tick run drives
the engine from the initial state into a long position, and in that Long
state BOTH virtual trigger levels are still populated: opening a position
never clears the cage levels, so "CageState is populated iff state = Caged"
fails. -/
theorem c2_mutual_exclusion_counterexample :
    isLong (runTicks defaultConfig initState [c2T1, c2T2, c2T3]).1 ∧
    ¬ isCaged (runTicks defaultConfig initState [c2T1, c2T2, c2T3]).1 ∧
    (runTicks defaultConfig initState [c2T1, c2T2, c2T3]).1.virtual_buy_stop =
      some (12003/10000) ∧
    (runTicks defaultConfig initState [c2T1, c2T2, c2T3]).1.virtual_sell_stop =
      some (12998/10000) := by
  norm_num [runTicks, on_tick, velocityUpdate, reset_cage, manage_cage, trailCage,
    cageBuyBreach, cageSellBreach, manage_position, initState, defaultConfig,
    c2T1, c2T2, c2T3, MarketData.mid, isLong, isCaged, Option.some_ne_none, abs_of_nonneg]

/-- C2 (amended): over any run on valid ticks (positive prices) from the
initial state, exactly one of Idle, Caged, Long, Short holds at the end, and
PositionState differs from NONE exactly in the Long and Short states; but the
cage levels are populated if and only if the engine is ACTIVE (is_active),
which includes the Long and Short states — they remain populated while a
position is open, not only while Caged.  In particular a Caged state always
carries both levels. -/
theorem c2_mutual_exclusion_amended (cfg : StraddleConfig) (ticks : List MarketData)
    (hval : ∀ t ∈ ticks, validTick t) :
    (isIdle (runTicks cfg initState ticks).1 ∨ isCaged (runTicks cfg initState ticks).1 ∨
      isLong (runTicks cfg initState ticks).1 ∨ isShort (runTicks cfg initState ticks).1) ∧
    (¬ (isIdle (runTicks cfg initState ticks).1 ∧ isCaged (runTicks cfg initState ticks).1)) ∧
    (¬ (isIdle (runTicks cfg initState ticks).1 ∧ isLong (runTicks cfg initState ticks).1)) ∧
    (¬ (isIdle (runTicks cfg initState ticks).1 ∧ isShort (runTicks cfg initState ticks).1)) ∧
    (¬ (isCaged (runTicks cfg initState ticks).1 ∧ isLong (runTicks cfg initState ticks).1)) ∧
    (¬ (isCaged (runTicks cfg initState ticks).1 ∧ isShort (runTicks cfg initState ticks).1)) ∧
    (¬ (isLong (runTicks cfg initState ticks).1 ∧ isShort (runTicks cfg initState ticks).1)) ∧
    ((runTicks cfg initState ticks).1.active_position ≠ none ↔
      (isLong (runTicks cfg initState ticks).1 ∨ isShort (runTicks cfg initState ticks).1)) ∧
    (((runTicks cfg initState ticks).1.virtual_buy_stop ≠ none ∧
        (runTicks cfg initState ticks).1.virtual_sell_stop ≠ none) ↔
      (runTicks cfg initState ticks).1.is_active = true) ∧
    (isCaged (runTicks cfg initState ticks).1 →
      ((runTicks cfg initState ticks).1.virtual_buy_stop ≠ none ∧
        (runTicks cfg initState ticks).1.virtual_sell_stop ≠ none)) := by
  have hinv := inv_runTicks cfg ticks initState inv_initState hval
  obtain ⟨hpart1, hpart2⟩ := statePartition (runTicks cfg initState ticks).1
  have hpop : ((runTicks cfg initState ticks).1.virtual_buy_stop ≠ none ∧
      (runTicks cfg initState ticks).1.virtual_sell_stop ≠ none) ↔
      (runTicks cfg initState ticks).1.is_active = true := by
    constructor
    · rintro ⟨h1, _⟩
      by_contra hna
      have hfa : (runTicks cfg initState ticks).1.is_active = false := by
        cases h : (runTicks cfg initState ticks).1.is_active
        · rfl
        · exact absurd h hna
      exact h1 (hinv.1 hfa).1
    · intro hact
      obtain ⟨⟨b, hb⟩, ⟨c, hc⟩⟩ := hinv.2 hact
      exact ⟨by simp [hb], by simp [hc]⟩
  refine ⟨hpart1, hpart2.1, hpart2.2.1, hpart2.2.2.1, hpart2.2.2.2.1, hpart2.2.2.2.2.1,
    hpart2.2.2.2.2.2, posIffLongShort _, hpop, ?_⟩
  intro hcaged
  exact hpop.mpr hcaged.1

/-- C2 witness: the amended invariant applied to the one-tick run on the
first valid tick of the counterexample sequence. -/
theorem c2_mutual_exclusion_witness :
    (∀ t ∈ [c2T1], validTick t) ∧
    ((isIdle (runTicks defaultConfig initState [c2T1]).1 ∨
        isCaged (runTicks defaultConfig initState [c2T1]).1 ∨
        isLong (runTicks defaultConfig initState [c2T1]).1 ∨
        isShort (runTicks defaultConfig initState [c2T1]).1) ∧
      (¬ (isIdle (runTicks defaultConfig initState [c2T1]).1 ∧
        isCaged (runTicks defaultConfig initState [c2T1]).1)) ∧
      (¬ (isIdle (runTicks defaultConfig initState [c2T1]).1 ∧
        isLong (runTicks defaultConfig initState [c2T1]).1)) ∧
      (¬ (isIdle (runTicks defaultConfig initState [c2T1]).1 ∧
        isShort (runTicks defaultConfig initState [c2T1]).1)) ∧
      (¬ (isCaged (runTicks defaultConfig initState [c2T1]).1 ∧
        isLong (runTicks defaultConfig initState [c2T1]).1)) ∧
      (¬ (isCaged (runTicks defaultConfig initState [c2T1]).1 ∧
        isShort (runTicks defaultConfig initState [c2T1]).1)) ∧
      (¬ (isLong (runTicks defaultConfig initState [c2T1]).1 ∧
        isShort (runTicks defaultConfig initState [c2T1]).1)) ∧
      ((runTicks defaultConfig initState [c2T1]).1.active_position ≠ none ↔
        (isLong (runTicks defaultConfig initState [c2T1]).1 ∨
          isShort (runTicks defaultConfig initState [c2T1]).1)) ∧
      (((runTicks defaultConfig initState [c2T1]).1.virtual_buy_stop ≠ none ∧
          (runTicks defaultConfig initState [c2T1]).1.virtual_sell_stop ≠ none) ↔
        (runTicks defaultConfig initState [c2T1]).1.is_active = true) ∧
      (isCaged (runTicks defaultConfig initState [c2T1]).1 →
        ((runTicks defaultConfig initState [c2T1]).1.virtual_buy_stop ≠ none ∧
          (runTicks defaultConfig initState [c2T1]).1.virtual_sell_stop ≠ none))) := by
  have hval : ∀ t ∈ [c2T1], validTick t := by
    intro t ht
    simp only [List.mem_singleton] at ht
    subst ht
    constructor <;> norm_num [c2T1]
  exact ⟨hval, c2_mutual_exclusion_amended defaultConfig [c2T1] hval⟩

end Straddle
